import Mathlib

/-
  Verification development for the StratoSAR planner core model
  (source: src/App.jsx — the pure computation part: pdec, strips, Trepos,
  compute, PROFILES, taskingCalc; everything else in the file is UI).

  Modelling conventions.
  * JS numbers are modelled as exact rationals (ℚ).  The source performs
    IEEE-754 double arithmetic; all claims treated here are either exact
    at the scale of the inputs or stated with an explicit tolerance, so
    exact rational arithmetic is the faithful idealisation.
  * Parameter fields can hold numbers, numeric strings, the empty string,
    or null (the form layer produces exactly these shapes); this is the
    JVal type below.  A numeric string such as "5,5" is identified with
    the number it parses to after the comma→dot normalisation that pdec
    performs, so JVal.num covers both numbers and numeric strings.
  * Division: wherever the source clamps the divisor away from zero with
    Math.max(_, ε) (ε > 0) JS float division agrees with total rational
    division and is modelled as ℚ division.  Where a divisor can vanish
    JS produces NaN or ±Infinity; those divisions are modelled by jdiv
    returning a JNum, and every quantity downstream of such a division is
    JNum-valued with faithful propagation (jmax/jmin/jceil/jfloor and the
    scalar helpers below follow the JS special cases).  In compute this
    covers the availability ratio mtbf/(mtbf+mttr) and the reposition
    divisor v·η, whose NaN/±Infinity flow through Aavail → Fpp and
    Tr → Tc → Smin → P0 → P; in taskingCalc, the batch-margin divisions.
    The one remaining unclamped divisor kept as total ℚ division is
    revisitMinutes R in revisitsY (JS would give Infinity at R = 0): every
    theorem depending on it assumes R > 0.  Zeros are unsigned (JS +0);
    negative-zero corners are outside every claim's scope.
  * Math.sqrt and Math.PI: no claim depends on their numeric values, so a
    computable rational stand-in (jsqrt, jpi) is used; compute carries the
    result symbolically.
-/

/-- A JavaScript value as held in a planner parameter field: a finite number
(or a string that pdec-parses to one), the empty/whitespace string, null, or
a non-empty string that does not parse to a finite number (NaN after JS
coercion). -/
inductive JVal where
  | num (q : ℚ)
  | blank
  | null
  | nanStr
deriving DecidableEq

/-- Is the value a (parsed) finite number? -/
def JVal.isNum : JVal → Bool
  | .num _ => true
  | _ => false

/-- JS ToNumber coercion on the shapes that reach arithmetic in the source:
"" and null coerce to 0.  nanStr would be NaN in JS; it never reaches an
arithmetic position in the modelled code paths (pdec never returns it), so
it is mapped to 0 to keep the model total. -/
def JVal.toN : JVal → ℚ
  | .num q => q
  | _ => 0

/-- Source `pdec(v, fb)` (App.jsx lines 19-25): null/undefined, empty string,
or an unparsable string yield the fallback; a parsable value yields its
number. -/
def pdec (v fb : JVal) : JVal :=
  match v with
  | .num q => .num q
  | _ => fb

/-- `pdec(v, fb)` specialised to the pervasive call shape where the fallback
is a numeric default from the DEF catalog, so the result is a number. -/
def pnum (v : JVal) (fb : ℚ) : ℚ :=
  match v with
  | .num q => q
  | _ => fb

/-- A JS float outcome where a division's divisor may vanish: a finite
value, NaN, or a signed infinity. -/
inductive JNum where
  | num (q : ℚ)
  | nan
  | inf
  | ninf
deriving DecidableEq

/-- Is the outcome a finite number? -/
def JNum.isNum : JNum → Bool
  | .num _ => true
  | _ => false

/-- JS float division on exact rationals: 0/0 = NaN, x/0 = ±Infinity for
x ≠ 0, ordinary quotient otherwise. -/
def jdiv (a b : ℚ) : JNum :=
  if b = 0 then
    if a = 0 then JNum.nan else if 0 < a then JNum.inf else JNum.ninf
  else JNum.num (a / b)

/-- JS Math.max on float outcomes: NaN absorbs, +Infinity dominates. -/
def jmax : JNum → JNum → JNum
  | .nan, _ => .nan
  | _, .nan => .nan
  | .inf, _ => .inf
  | _, .inf => .inf
  | .ninf, y => y
  | x, .ninf => x
  | .num a, .num b => .num (max a b)

/-- JS Math.min on float outcomes: NaN absorbs, −Infinity dominates. -/
def jmin : JNum → JNum → JNum
  | .nan, _ => .nan
  | _, .nan => .nan
  | .ninf, _ => .ninf
  | _, .ninf => .ninf
  | .inf, y => y
  | x, .inf => x
  | .num a, .num b => .num (min a b)

/-- JS Math.ceil: NaN and ±Infinity pass through. -/
def jceil : JNum → JNum
  | .num a => .num ((⌈a⌉ : ℚ))
  | .nan => .nan
  | .inf => .inf
  | .ninf => .ninf

/-- JS Math.floor: NaN and ±Infinity pass through. -/
def jfloor : JNum → JNum
  | .num a => .num ((⌊a⌋ : ℚ))
  | .nan => .nan
  | .inf => .inf
  | .ninf => .ninf

/-- a + x for a finite left operand a (the only shape the source needs;
JS addition commutes). -/
def jaddQ (a : ℚ) : JNum → JNum
  | .num b => .num (a + b)
  | .nan => .nan
  | .inf => .inf
  | .ninf => .ninf

/-- a − x for a finite left operand a. -/
def jsubQ (a : ℚ) : JNum → JNum
  | .num b => .num (a - b)
  | .nan => .nan
  | .inf => .ninf
  | .ninf => .inf

/-- a · x for a finite operand a (JS multiplication commutes, so this also
models x · a): 0 · ±Infinity = NaN, otherwise the sign of a orients the
infinities. -/
def jmulQ (a : ℚ) : JNum → JNum
  | .num b => .num (a * b)
  | .nan => .nan
  | .inf => if 0 < a then .inf else if a < 0 then .ninf else .nan
  | .ninf => if 0 < a then .ninf else if a < 0 then .inf else .nan

/-- x / b for a finite divisor b (a zero divisor is the JS +0, so
±Infinity keep their sign over it). -/
def jdivQ : JNum → ℚ → JNum
  | .num a, b => jdiv a b
  | .nan, _ => .nan
  | .inf, b => if 0 < b then .inf else if b < 0 then .ninf else .inf
  | .ninf, b => if 0 < b then .ninf else if b < 0 then .inf else .ninf

/-- a / y for a finite numerator a: a / ±Infinity = 0. -/
def jdivNum (a : ℚ) : JNum → JNum
  | .num b => jdiv a b
  | .nan => .nan
  | .inf => .num 0
  | .ninf => .num 0

/-- Computable rational stand-in for Math.sqrt.  No claim in this
development depends on its numeric value: it only flows through the W /
strip-count fields, which the theorems below treat symbolically. -/
def jsqrt (q : ℚ) : ℚ := (Int.sqrt q.num : ℚ) / (Nat.sqrt q.den : ℚ)

/-- The double value of Math.PI, as an exact rational (only reaches the
reposition-time field, which no claim evaluates numerically). -/
def jpi : ℚ := 3.141592653589793

/-- A tasking operating profile (source PROFILES entries, lines 30-34). -/
structure Profile where
  name : String
  D : ℚ
  Cf : ℚ
  Ch : ℚ
  Cons : ℚ
deriving DecidableEq

/-- The fixed profile catalog (lines 30-34), as a lookup returning none for
an unknown key. -/
def PROFILES (k : String) : Option Profile :=
  if k = "standard" then some { name := "Standard", D := 1, Cf := 1, Ch := 1, Cons := 1 }
  else if k = "long" then some { name := "Long", D := 1.5, Cf := 1.1, Ch := 1, Cons := 1.2 }
  else if k = "express" then some { name := "Express", D := 0.7, Cf := 1.15, Ch := 1.15, Cons := 1 }
  else none

/-- The planner parameter record: every field the core model reads.  UI-only
fields of the source DEF object (mode, client/AOI names, missions_count,
mission_profile) are not read by compute/taskingCalc — mission count and
profile key are passed to taskingCalc as separate arguments, as the caller
does. -/
structure Params where
  platform : String
  aoiType : String
  relay_hours_h : JVal
  aoi_km2 : JVal
  aoi_width_km : JVal
  corridor_width_km : JVal
  revisit_min : JVal
  mission_days : JVal
  turnaround_days : JVal
  swath_km : JVal
  ground_speed_kmh : JVal
  duty : JVal
  cov_eff : JVal
  overlap : JVal
  turn_radius_km : JVal
  eta_nav : JVal
  mtbf_h : JVal
  mttr_h : JVal
  max_flight_days : JVal
  maint_buffer : JVal
  spare_buffer : JVal
  Cf_mission : JVal
  Ch_hour : JVal
  capex_platform_EUR : JVal
  life_platform_days : JVal
  capex_payload_EUR : JVal
  life_payload_days : JVal
  consumables_per_mission : JVal
  annual_cloud_costs : JVal
  target_gm : JVal
  proposed_annual_price_EUR : JVal
  proposed_price_per_mission_EUR : JVal

/- Numeric defaults of the source DEF object (lines 37-91), used as pdec
fallbacks throughout the model. -/
def DEF_relay_hours_h : ℚ := 6
def DEF_aoi_km2 : ℚ := 181.8
def DEF_corridor_width_km : ℚ := 0.8
def DEF_revisit_min : ℚ := 1440
def DEF_mission_days : ℚ := 7
def DEF_turnaround_days : ℚ := 1
def DEF_swath_km : ℚ := 7
def DEF_ground_speed_kmh : ℚ := 40
def DEF_duty : ℚ := 0.75
def DEF_cov_eff : ℚ := 0.5
def DEF_overlap : ℚ := 0.2
def DEF_turn_radius_km : ℚ := 5
def DEF_eta_nav : ℚ := 0.8
def DEF_mtbf_h : ℚ := 500
def DEF_mttr_h : ℚ := 20
def DEF_max_flight_days : ℚ := 200
def DEF_maint_buffer : ℚ := 0.25
def DEF_spare_buffer : ℚ := 0.15
def DEF_Cf_mission : ℚ := 2500
def DEF_Ch_hour : ℚ := 25
def DEF_capex_platform_EUR : ℚ := 20000
def DEF_life_platform_days : ℚ := 800
def DEF_capex_payload_EUR : ℚ := 90000
def DEF_life_payload_days : ℚ := 1200
def DEF_consumables_per_mission : ℚ := 500
def DEF_annual_cloud_costs : ℚ := 12000
def DEF_target_gm : ℚ := 0.5

/-- The source DEF parameter object (lines 37-91) as a Params record. -/
def DEF : Params where
  platform := "stats"
  aoiType := "areal"
  relay_hours_h := JVal.num DEF_relay_hours_h
  aoi_km2 := JVal.num DEF_aoi_km2
  aoi_width_km := JVal.null
  corridor_width_km := JVal.num DEF_corridor_width_km
  revisit_min := JVal.num DEF_revisit_min
  mission_days := JVal.num DEF_mission_days
  turnaround_days := JVal.num DEF_turnaround_days
  swath_km := JVal.num DEF_swath_km
  ground_speed_kmh := JVal.num DEF_ground_speed_kmh
  duty := JVal.num DEF_duty
  cov_eff := JVal.num DEF_cov_eff
  overlap := JVal.num DEF_overlap
  turn_radius_km := JVal.num DEF_turn_radius_km
  eta_nav := JVal.num DEF_eta_nav
  mtbf_h := JVal.num DEF_mtbf_h
  mttr_h := JVal.num DEF_mttr_h
  max_flight_days := JVal.num DEF_max_flight_days
  maint_buffer := JVal.num DEF_maint_buffer
  spare_buffer := JVal.num DEF_spare_buffer
  Cf_mission := JVal.num DEF_Cf_mission
  Ch_hour := JVal.num DEF_Ch_hour
  capex_platform_EUR := JVal.num DEF_capex_platform_EUR
  life_platform_days := JVal.num DEF_life_platform_days
  capex_payload_EUR := JVal.num DEF_capex_payload_EUR
  life_payload_days := JVal.num DEF_life_payload_days
  consumables_per_mission := JVal.num DEF_consumables_per_mission
  annual_cloud_costs := JVal.num DEF_annual_cloud_costs
  target_gm := JVal.num DEF_target_gm
  proposed_annual_price_EUR := JVal.blank
  proposed_price_per_mission_EUR := JVal.blank

/-- Source `strips` (lines 94-97): strip count.  The W argument may be a
number or the empty string (JS coerces "" to 0 in the division). -/
def strips (type : String) (W : JVal) (cw : JVal) (sw ov : ℚ) : ℤ :=
  if type = "corridor" then max 1 ⌈pnum cw 0 / (sw * (1 - ov))⌉
  else ⌈W.toN / (sw * (1 - ov))⌉

/-- Source `Trepos` (lines 99-102): reposition time in minutes.  The v·η
divisor is unclamped, so the JS special cases (±Infinity, NaN for 0/0) are
kept; the trailing ·60 of the source is jmulQ 60 applied to the quotient. -/
def Trepos (type : String) (n : ℤ) (r v eta : ℚ) : JNum :=
  if type = "corridor" ∧ n = 1 then jmulQ 60 (jdiv (jpi * r) (v * eta))
  else jmulQ 60 (jdiv ((n : ℚ) * jpi * r) (v * eta))

/-- PricingPolicy: price at a target gross margin, `cost / max(1-g, 0.01)`.
This is exactly the inline expression of lines 163 and 175 of compute and
line 243 of taskingCalc. -/
def priceFromCost (cost targetMargin : ℚ) : ℚ := cost / max (1 - targetMargin) 0.01

/-- PricingPolicy: realised gross margin of a price over a cost,
`(price-cost)/max(price,0.01)`; the source applies the 0.01 floor to the
user-proposed price before the inline division (lines 167-168, 248-250). -/
def marginFromPrice (price cost : ℚ) : ℚ := (price - cost) / max price 0.01

namespace Cov

/- Intermediate quantities of `compute` (lines 104-211), one definition per
source binding, in source order. -/

/-- Line 105: `p.platform === "relay"`. -/
def isRelay (p : Params) : Bool := p.platform == "relay"

/-- Line 106: `A = Math.max(1e-6, pdec(p.aoi_km2, DEF.aoi_km2))`. -/
def A (p : Params) : ℚ := max 0.000001 (pnum p.aoi_km2 DEF_aoi_km2)

/-- Line 107: `W = p.aoi_width_km !== null && p.aoi_width_km !== "" ?
pdec(p.aoi_width_km) : sqrt(A)`.  Note the pdec branch has fallback "" so a
non-numeric non-empty width yields the empty string, not sqrt(A). -/
def W (p : Params) : JVal :=
  if p.aoi_width_km ≠ JVal.null ∧ p.aoi_width_km ≠ JVal.blank
  then pdec p.aoi_width_km JVal.blank
  else JVal.num (jsqrt (A p))

/-- Line 109. -/
def relayH (p : Params) : ℚ := pnum p.relay_hours_h DEF_relay_hours_h

/-- Line 110. -/
def D (p : Params) : ℚ :=
  if isRelay p then max (relayH p / 24) (1 / 24) else pnum p.mission_days DEF_mission_days

/-- Line 111. -/
def Hh (p : Params) : ℚ := if isRelay p then relayH p else D p * 24

/-- Lines 113-119: payload and navigation inputs. -/
def w (p : Params) : ℚ := pnum p.swath_km DEF_swath_km

def v (p : Params) : ℚ := pnum p.ground_speed_kmh DEF_ground_speed_kmh

def d (p : Params) : ℚ := pnum p.duty DEF_duty

def c (p : Params) : ℚ := pnum p.cov_eff DEF_cov_eff

def ov (p : Params) : ℚ := pnum p.overlap DEF_overlap

def r (p : Params) : ℚ := pnum p.turn_radius_km DEF_turn_radius_km

def eta (p : Params) : ℚ := pnum p.eta_nav DEF_eta_nav

/-- Line 121: coverage rate in km²/h. -/
def covRate (p : Params) : ℚ := w p * v p * d p * c p

/-- Line 122. -/
def n (p : Params) : ℤ := strips p.aoiType (W p) p.corridor_width_km (w p) (ov p)

/-- Line 123: sweep time (minutes); divisor clamped at 1e-6. -/
def Ts (p : Params) : ℚ := A p / max (covRate p) 0.000001 * 60

/-- Line 124. -/
def Tr (p : Params) : JNum := Trepos p.aoiType (n p) (r p) (v p) (eta p)

/-- Line 125: cycle time (Ts is always finite, Tr may not be). -/
def Tc (p : Params) : JNum := jaddQ (Ts p) (Tr p)

/-- Line 127. -/
def R (p : Params) : ℚ := pnum p.revisit_min DEF_revisit_min

/-- Line 128: `ceil(525600 / R)` (JS would give Infinity at R = 0; theorems
using this assume R > 0). -/
def revisitsY (p : Params) : ℤ := ⌈(525600 : ℚ) / R p⌉

/-- Line 129. -/
def Kyear (p : Params) : ℚ := A p * (revisitsY p : ℚ)

/-- Line 130. -/
def Kmis (p : Params) : ℚ := covRate p * max (Hh p) 0.000001

/-- Line 132. -/
def Fb (p : Params) : ℤ := ⌈Kyear p / max (Kmis p) 0.000001⌉

/-- Line 133. -/
def Ft (p : Params) : ℤ := Fb p

/-- Lines 135-138: the mtbf+mttr divisor is unclamped, so the 0/0 case
(mtbf = mttr = 0) is NaN and absorbs the Math.max/Math.min clamps, exactly
as in JS. -/
def Aavail (p : Params) : JNum :=
  jmin (JNum.num 0.999)
    (jmax (JNum.num 0.5)
      (jdiv (pnum p.mtbf_h DEF_mtbf_h)
        (pnum p.mtbf_h DEF_mtbf_h + pnum p.mttr_h DEF_mttr_h)))

/-- Line 139. -/
def usable (p : Params) : ℚ :=
  pnum p.max_flight_days DEF_max_flight_days * (1 - pnum p.maint_buffer DEF_maint_buffer)

/-- Line 140: missions per platform per year; a NaN availability flows
through. -/
def Fpp (p : Params) : JNum :=
  if isRelay p then JNum.num 0
  else jfloor (jdivQ (jmulQ (usable p) (Aavail p))
    (max (D p + pnum p.turnaround_days DEF_turnaround_days) 0.1))

/-- Line 141 (the R divisor is unclamped; theorems assume R > 0, under
which a non-NaN Tc yields a non-NaN Smin). -/
def Smin (p : Params) : JNum := if isRelay p then JNum.num 1 else jceil (jdivQ (Tc p) (R p))

/-- Line 142: NaN from Fpp or Smin is absorbed by Math.max, as in JS. -/
def P0 (p : Params) : JNum :=
  if isRelay p then JNum.num 1
  else jmax (jceil (jdivNum ((Ft p : ℚ)) (jmax (Fpp p) (JNum.num 1)))) (Smin p)

/-- Line 143 (the source multiplies P0 on the left; JS · commutes). -/
def P (p : Params) : JNum :=
  if isRelay p then JNum.num 1
  else jceil (jmulQ (1 + pnum p.spare_buffer DEF_spare_buffer) (P0 p))

/-- Lines 145-148. -/
def amortPlat (p : Params) : ℚ :=
  pnum p.capex_platform_EUR DEF_capex_platform_EUR / max (pnum p.life_platform_days DEF_life_platform_days) 1

def amortPay (p : Params) : ℚ :=
  pnum p.capex_payload_EUR DEF_capex_payload_EUR / max (pnum p.life_payload_days DEF_life_payload_days) 1

/-- Lines 150-154: per-mission cost. -/
def Cmis (p : Params) : ℚ :=
  pnum p.Cf_mission DEF_Cf_mission + pnum p.Ch_hour DEF_Ch_hour * Hh p +
    (amortPlat p + amortPay p) * D p + pnum p.consumables_per_mission DEF_consumables_per_mission

/-- Line 156: annual cost. -/
def Ann (p : Params) : ℚ := (Ft p : ℚ) * Cmis p + pnum p.annual_cloud_costs DEF_annual_cloud_costs

/-- Lines 159-160. -/
def EURkm2_per_revisit (p : Params) : ℚ := Ann p / max (Kyear p) 1

def EURkm2_year (p : Params) : ℚ := Ann p / max (A p) 1

/-- Target gross margin input (pdec'd at lines 163 and 175). -/
def gm (p : Params) : ℚ := pnum p.target_gm DEF_target_gm

/-- Line 163: `Ann / Math.max(1 - pdec(p.target_gm, DEF.target_gm), 0.01)`. -/
def PriceGM (p : Params) : ℚ := priceFromCost (Ann p) (gm p)

/-- Line 166: `p.proposed_annual_price_EUR !== "" && !isNaN(+p.…)`.  null
passes this test (it coerces to 0, not NaN). -/
def hasAnnPrice (p : Params) : Bool :=
  p.proposed_annual_price_EUR != JVal.blank && p.proposed_annual_price_EUR != JVal.nanStr

/-- Line 167: the user price, floored at 0.01. -/
def Puser (p : Params) : ℚ := max p.proposed_annual_price_EUR.toN 0.01

/-- Lines 164-170: realised margin on the proposed annual price (divisor
Puser ≥ 0.01, so plain rational division is faithful). -/
def GM (p : Params) : Option ℚ :=
  if hasAnnPrice p then some ((Puser p - Ann p) / Puser p) else none

/-- Lines 165-170. -/
def PriceAnnualChosen (p : Params) : ℚ := if hasAnnPrice p then Puser p else PriceGM p

/-- Lines 173-175. -/
def PricePerKm2_year (p : Params) : ℚ := PriceAnnualChosen p / max (A p) 1

def PricePerKm2_per_revisit (p : Params) : ℚ := PriceAnnualChosen p / max (Kyear p) 1

def PricePerMission_target (p : Params) : ℚ := priceFromCost (Cmis p) (gm p)

/-- Line 210. -/
def slack (p : Params) : JNum := jsubQ (R p) (Tc p)

end Cov

/-- The full result record of `compute` (lines 177-211). -/
structure CovResult where
  isRelay : Bool
  A : ℚ
  W : JVal
  D : ℚ
  Hh : ℚ
  covRate : ℚ
  n : ℤ
  Ts : ℚ
  Tr : JNum
  Tc : JNum
  R : ℚ
  revisitsY : ℤ
  Kyear : ℚ
  Kmis : ℚ
  Fb : ℤ
  Ft : ℤ
  Aavail : JNum
  usable : ℚ
  Fpp : JNum
  Smin : JNum
  P0 : JNum
  P : JNum
  Cmis : ℚ
  Ann : ℚ
  EURkm2_per_revisit : ℚ
  EURkm2_year : ℚ
  PriceGM : ℚ
  PriceAnnualChosen : ℚ
  PricePerKm2_year : ℚ
  PricePerKm2_per_revisit : ℚ
  PricePerMission_target : ℚ
  GM : Option ℚ
  slack : JNum

/-- Source `compute(p)` (lines 104-212): the coverage/subscription model.
A pure total function of the parameter record — the source has no throw and
no error value; every field is always populated. -/
def compute (p : Params) : CovResult where
  isRelay := Cov.isRelay p
  A := Cov.A p
  W := Cov.W p
  D := Cov.D p
  Hh := Cov.Hh p
  covRate := Cov.covRate p
  n := Cov.n p
  Ts := Cov.Ts p
  Tr := Cov.Tr p
  Tc := Cov.Tc p
  R := Cov.R p
  revisitsY := Cov.revisitsY p
  Kyear := Cov.Kyear p
  Kmis := Cov.Kmis p
  Fb := Cov.Fb p
  Ft := Cov.Ft p
  Aavail := Cov.Aavail p
  usable := Cov.usable p
  Fpp := Cov.Fpp p
  Smin := Cov.Smin p
  P0 := Cov.P0 p
  P := Cov.P p
  Cmis := Cov.Cmis p
  Ann := Cov.Ann p
  EURkm2_per_revisit := Cov.EURkm2_per_revisit p
  EURkm2_year := Cov.EURkm2_year p
  PriceGM := Cov.PriceGM p
  PriceAnnualChosen := Cov.PriceAnnualChosen p
  PricePerKm2_year := Cov.PricePerKm2_year p
  PricePerKm2_per_revisit := Cov.PricePerKm2_per_revisit p
  PricePerMission_target := Cov.PricePerMission_target p
  GM := Cov.GM p
  slack := Cov.slack p

namespace Task

/- Intermediate quantities of `taskingCalc` (lines 215-285), one definition
per source binding. -/

/-- Line 216. -/
def isRelay (p : Params) : Bool := p.platform == "relay"

/-- Line 217: `PROFILES[profileKey] || PROFILES.standard`. -/
def profile (k : String) : Profile :=
  (PROFILES k).getD { name := "Standard", D := 1, Cf := 1, Ch := 1, Cons := 1 }

/-- Line 219. -/
def relayH (p : Params) : ℚ := pnum p.relay_hours_h DEF_relay_hours_h

/-- Line 220. -/
def Dbase (p : Params) : ℚ :=
  if isRelay p then max (relayH p / 24) (1 / 24) else pnum p.mission_days DEF_mission_days

/-- Line 221. -/
def D (p : Params) (k : String) : ℚ := Dbase p * (profile k).D

/-- Line 222. -/
def H (p : Params) (k : String) : ℚ := D p k * 24

/-- Lines 224-227: amortisation is computed from the DEF catalog constants,
not from the caller-supplied capex/life fields — `pdec(DEF.capex_platform_EUR,
DEF.capex_platform_EUR)` etc. -/
def amortPlat : ℚ := DEF_capex_platform_EUR / max DEF_life_platform_days 1

def amortPay : ℚ := DEF_capex_payload_EUR / max DEF_life_payload_days 1

/-- Lines 229-233: per-mission cost under the profile multipliers. -/
def Cmis (p : Params) (k : String) : ℚ :=
  pnum p.Cf_mission DEF_Cf_mission * (profile k).Cf +
    pnum p.Ch_hour DEF_Ch_hour * (profile k).Ch * H p k +
    (amortPlat + amortPay) * D p k +
    pnum p.consumables_per_mission DEF_consumables_per_mission * (profile k).Cons

/-- Line 235: batch cost.  The caller coerces the mission count to a
nonnegative integer before the call (App.jsx line 420), so m : ℕ. -/
def tot (p : Params) (m : ℕ) (k : String) : ℚ := (m : ℚ) * Cmis p k

/-- Line 238. -/
def covRate (p : Params) : ℚ :=
  pnum p.swath_km DEF_swath_km * pnum p.ground_speed_kmh DEF_ground_speed_kmh *
    pnum p.duty DEF_duty * pnum p.cov_eff DEF_cov_eff

/-- Line 239. -/
def Kmis (p : Params) (k : String) : ℚ := covRate p * H p k

/-- Line 242. -/
def gm (p : Params) : ℚ := pnum p.target_gm DEF_target_gm

/-- Line 243: `Cmis / Math.max(1 - gmTarget, 0.01)`. -/
def pricePerMissionGM (p : Params) (k : String) : ℚ := priceFromCost (Cmis p k) (gm p)

/-- Line 244. -/
def totalPriceGM (p : Params) (m : ℕ) (k : String) : ℚ := pricePerMissionGM p k * (m : ℚ)

/-- Line 247: `p.proposed_price_per_mission_EUR !== "" && isFinite(+p.…)`.
null passes (it coerces to 0, which is finite). -/
def userPmValid (p : Params) : Bool :=
  p.proposed_price_per_mission_EUR != JVal.blank && p.proposed_price_per_mission_EUR != JVal.nanStr

/-- Line 248: the proposed per-mission price, floored at 0.01. -/
def userPmVal (p : Params) : ℚ := max p.proposed_price_per_mission_EUR.toN 0.01

def userPm (p : Params) : Option ℚ := if userPmValid p then some (userPmVal p) else none

/-- Line 249. -/
def userTotal (p : Params) (m : ℕ) : Option ℚ :=
  if userPmValid p then some (userPmVal p * (m : ℚ)) else none

/-- Line 250 (divisor userPm ≥ 0.01, plain division is faithful). -/
def GMm_user (p : Params) (k : String) : Option ℚ :=
  if userPmValid p then some ((userPmVal p - Cmis p k) / userPmVal p) else none

/-- Line 251: the divisor userTotal = userPm·m vanishes when m = 0, so the
JS special cases are modelled with jdiv. -/
def GMtot_user (p : Params) (m : ℕ) (k : String) : Option JNum :=
  if userPmValid p
  then some (jdiv (userPmVal p * (m : ℚ) - tot p m k) (userPmVal p * (m : ℚ)))
  else none

/-- Line 254. -/
def Pm_final (p : Params) (k : String) : ℚ :=
  if userPmValid p then userPmVal p else pricePerMissionGM p k

/-- Line 255. -/
def Ptot_final (p : Params) (m : ℕ) (k : String) : ℚ := Pm_final p k * (m : ℚ)

/-- Line 256: the divisor Pm_final vanishes when Cmis = 0 without a user
price, so jdiv models the JS special cases. -/
def GMm_final (p : Params) (k : String) : JNum :=
  jdiv (Pm_final p k - Cmis p k) (Pm_final p k)

/-- Line 257: the divisor Ptot_final vanishes when m = 0 (0/0 = NaN). -/
def GMtot_final (p : Params) (m : ℕ) (k : String) : JNum :=
  jdiv (Ptot_final p m k - tot p m k) (Ptot_final p m k)

/-- Lines 260-261 (divisor clamped at 1e-6). -/
def pricePerKm2 (p : Params) (k : String) : ℚ := Pm_final p k / max (Kmis p k) 0.000001

def costPerKm2 (p : Params) (k : String) : ℚ := Cmis p k / max (Kmis p k) 0.000001

end Task

/-- The full result record of `taskingCalc` (lines 263-284). -/
structure TaskResult where
  isRelay : Bool
  pr : Profile
  D : ℚ
  H : ℚ
  Cmis : ℚ
  Kmis : ℚ
  tot : ℚ
  pricePerMissionGM : ℚ
  totalPriceGM : ℚ
  userPm : Option ℚ
  userTotal : Option ℚ
  GMm_user : Option ℚ
  GMtot_user : Option JNum
  Pm_final : ℚ
  Ptot_final : ℚ
  GMm_final : JNum
  GMtot_final : JNum
  pricePerKm2 : ℚ
  costPerKm2 : ℚ
  hasUserPrice : Bool

/-- Source `taskingCalc(p, m, profileKey)` (lines 215-285): the tasking
model.  Pure and total; every field is always populated. -/
def taskingCalc (p : Params) (m : ℕ) (k : String) : TaskResult where
  isRelay := Task.isRelay p
  pr := Task.profile k
  D := Task.D p k
  H := Task.H p k
  Cmis := Task.Cmis p k
  Kmis := Task.Kmis p k
  tot := Task.tot p m k
  pricePerMissionGM := Task.pricePerMissionGM p k
  totalPriceGM := Task.totalPriceGM p m k
  userPm := Task.userPm p
  userTotal := Task.userTotal p m
  GMm_user := Task.GMm_user p k
  GMtot_user := Task.GMtot_user p m k
  Pm_final := Task.Pm_final p k
  Ptot_final := Task.Ptot_final p m k
  GMm_final := Task.GMm_final p k
  GMtot_final := Task.GMtot_final p m k
  pricePerKm2 := Task.pricePerKm2 p k
  costPerKm2 := Task.costPerKm2 p k
  hasUserPrice := Task.userPmValid p

/-- Profile key constant used by witness instances. -/
def kStd : String := "standard"

/- ====================== Concrete scenario records ====================== -/

/-- A corridor AOI with corridorWidthKm = 1.6, swathKm = 1 (overlap is the
default 0.2). -/
def recCorridor : Params :=
  {DEF with aoiType := "corridor", corridor_width_km := JVal.num 1.6, swath_km := JVal.num 1}

/-- The end-to-end subscription scenario of the spec (§8 item 6): every
listed field set explicitly (they coincide with the catalog defaults). -/
def recScenario : Params :=
  {DEF with
    aoi_km2 := JVal.num 181.8, revisit_min := JVal.num 1440,
    swath_km := JVal.num 7, ground_speed_kmh := JVal.num 40,
    duty := JVal.num 0.75, cov_eff := JVal.num 0.5, overlap := JVal.num 0.2,
    turn_radius_km := JVal.num 5, eta_nav := JVal.num 0.8,
    mtbf_h := JVal.num 500, mttr_h := JVal.num 20,
    max_flight_days := JVal.num 200, maint_buffer := JVal.num 0.25,
    spare_buffer := JVal.num 0.15, mission_days := JVal.num 7,
    turnaround_days := JVal.num 1, Cf_mission := JVal.num 2500,
    Ch_hour := JVal.num 25, capex_platform_EUR := JVal.num 20000,
    life_platform_days := JVal.num 800, capex_payload_EUR := JVal.num 90000,
    life_payload_days := JVal.num 1200, consumables_per_mission := JVal.num 500,
    annual_cloud_costs := JVal.num 12000, target_gm := JVal.num 0.5}

/-- A record whose required numeric area field holds an unparsable string. -/
def recBadArea : Params := {DEF with aoi_km2 := JVal.nanStr}

/-- A record with a negative area. -/
def recNegArea : Params := {DEF with aoi_km2 := JVal.num (-5)}

/-- A record whose AOI width holds a non-empty, non-numeric string. -/
def recBadWidth : Params := {DEF with aoi_width_km := JVal.nanStr}

/-- A record with a large negative fixed cost per mission (per-mission cost
becomes negative). -/
def recNegCost : Params := {DEF with Cf_mission := JVal.num (-100000)}

/-- A record whose per-mission tasking cost is exactly zero: zero mission
days kills the hourly and amortisation terms, zero fixed cost and
consumables kill the rest. -/
def recZeroCost : Params :=
  {DEF with
    mission_days := JVal.num 0, Cf_mission := JVal.num 0,
    consumables_per_mission := JVal.num 0}

/- ====================== Claims ====================== -/

/-- C1, counterexample: with the required numeric field areaKm2 set to an
unparsable string, compute does not fail with a structured InvalidParameter
error — it returns a fully populated result in which the catalog default
181.8 has been silently substituted for the area, which the claim says never
happens. -/
theorem C1_invalid_parameter_cex : (compute recBadArea).A = DEF_aoi_km2 := by
  with_unfolding_all rfl

/-- C1, amended: computeCoverageModel never fails.  An unparsable required
numeric field (areaKm2, revisitMinutes) is silently replaced by the catalog
default — the whole result record is the one computed from the default — and
a non-positive areaKm2 is silently clamped to 1e-6; the result record is
always fully populated. -/
theorem C1_default_substitution :
    (∀ (p : Params) (x : JVal), x.isNum = false →
       compute {p with aoi_km2 := x} = compute {p with aoi_km2 := JVal.num DEF_aoi_km2}) ∧
    (∀ (p : Params) (x : JVal), x.isNum = false →
       compute {p with revisit_min := x} = compute {p with revisit_min := JVal.num DEF_revisit_min}) ∧
    (∀ p : Params, pnum p.aoi_km2 DEF_aoi_km2 ≤ 0 → (compute p).A = 1 / 1000000) := by
  refine ⟨?_, ?_, ?_⟩
  · intro p x hx
    cases x with
    | num q => simp [JVal.isNum] at hx
    | blank => rfl
    | null => rfl
    | nanStr => rfl
  · intro p x hx
    cases x with
    | num q => simp [JVal.isNum] at hx
    | blank => rfl
    | null => rfl
    | nanStr => rfl
  · intro p h
    show Cov.A p = 1 / 1000000
    unfold Cov.A
    rw [max_eq_left (h.trans (by norm_num))]
    norm_num

/-- C1, witness: the amended statement instantiated at concrete records. -/
theorem C1_default_substitution_wit :
    JVal.isNum JVal.nanStr = false ∧ JVal.isNum JVal.blank = false ∧
    compute {DEF with aoi_km2 := JVal.nanStr} = compute {DEF with aoi_km2 := JVal.num DEF_aoi_km2} ∧
    compute {DEF with revisit_min := JVal.blank} = compute {DEF with revisit_min := JVal.num DEF_revisit_min} ∧
    pnum recNegArea.aoi_km2 DEF_aoi_km2 ≤ 0 ∧ (compute recNegArea).A = 1 / 1000000 := by
  have hneg : pnum recNegArea.aoi_km2 DEF_aoi_km2 ≤ 0 := by
    show ((-5 : ℚ)) ≤ 0
    norm_num
  exact ⟨rfl, rfl, C1_default_substitution.1 DEF JVal.nanStr rfl,
    C1_default_substitution.2.1 DEF JVal.blank rfl, hneg,
    C1_default_substitution.2.2 recNegArea hneg⟩

/-- C2, counterexample: the margin round-trip fails as stated.  At
g = 0.995 ∈ [0,1) the 0.01 clamp in priceFromCost caps the price at
100·cost, so the recovered margin is 0.99, not 0.995; and at cost = 0.001,
g = 0.5 the price 0.002 falls under the 0.01 floor of marginFromPrice, so
the recovered margin is 0.1, not 0.5. -/
theorem C2_margin_roundtrip_cex :
    marginFromPrice (priceFromCost 1 (199 / 200)) 1 ≠ 199 / 200 ∧
    marginFromPrice (priceFromCost (1 / 1000) (1 / 2)) (1 / 1000) ≠ 1 / 2 := by
  constructor
  · have h : marginFromPrice (priceFromCost 1 (199 / 200)) 1 = 99 / 100 := by
      with_unfolding_all rfl
    rw [h]; norm_num
  · have h : marginFromPrice (priceFromCost (1 / 1000) (1 / 2)) (1 / 1000) = 1 / 10 := by
      with_unfolding_all rfl
    rw [h]; norm_num

/-- C2, amended: the round-trip
marginFromPrice (priceFromCost cost g) cost = g holds exactly whenever
neither clamp engages: g ≤ 0.99 (so the 1−g clamp of priceFromCost is
inactive) and cost ≥ 0.01 (so the resulting price is at least 0.01 and the
price floor of marginFromPrice is inactive). -/
theorem C2_margin_roundtrip_amended (cost g : ℚ) (hc : 1 / 100 ≤ cost)
    (h0 : 0 ≤ g) (h1 : g ≤ 99 / 100) :
    marginFromPrice (priceFromCost cost g) cost = g := by
  have h001 : (0.01 : ℚ) = 1 / 100 := by norm_num
  have hgpos : (0 : ℚ) < 1 - g := by linarith
  have hcpos : (0 : ℚ) < cost := lt_of_lt_of_le (by norm_num) hc
  unfold marginFromPrice priceFromCost
  rw [h001, max_eq_left (by linarith : (1 : ℚ) / 100 ≤ 1 - g)]
  have hprice : (1 : ℚ) / 100 ≤ cost / (1 - g) := by
    rw [le_div_iff₀ hgpos]
    nlinarith
  rw [max_eq_left hprice]
  have hpne : cost / (1 - g) ≠ 0 := ne_of_gt (lt_of_lt_of_le (by norm_num) hprice)
  field_simp
  ring

/-- C2, witness: the amended round-trip at cost = 2, g = 1/2. -/
theorem C2_margin_roundtrip_wit :
    (1 : ℚ) / 100 ≤ 2 ∧ (0 : ℚ) ≤ 1 / 2 ∧ (1 : ℚ) / 2 ≤ 99 / 100 ∧
    marginFromPrice (priceFromCost 2 (1 / 2)) 2 = 1 / 2 :=
  ⟨by norm_num, by norm_num, by norm_num,
    C2_margin_roundtrip_amended 2 (1 / 2) (by norm_num) (by norm_num) (by norm_num)⟩

/-- C3, counterexample: with a large negative fixed cost per mission the
per-mission cost is negative (−94 600), so halving the revisit interval
from 1440 to 720 minutes doubles missionsPerYear (4 → 8) and *decreases*
annualCost (−366 400 → −744 800), contradicting the claim that a smaller
positive revisitMinutes never decreases annualCost. -/
theorem C3_ann_monotone_cex :
    ¬ ((compute {recNegCost with revisit_min := JVal.num 1440}).Ann ≤
        (compute {recNegCost with revisit_min := JVal.num 720}).Ann) := by
  have h1 : (compute {recNegCost with revisit_min := JVal.num 1440}).Ann = -366400 := by
    with_unfolding_all rfl
  have h2 : (compute {recNegCost with revisit_min := JVal.num 720}).Ann = -744800 := by
    with_unfolding_all rfl
  rw [h1, h2]
  norm_num

/-- C3, amended: for two records identical except for the revisit interval,
with the second interval positive and smaller, missionsPerYear (Ft) never
decreases; annualCost (Ann) also never decreases provided the (shared)
per-mission cost is nonnegative — the restriction the counterexample
forces, satisfied by any record with nonnegative cost inputs. -/
theorem C3_revisit_monotone_amended (p : Params) (r1 r2 : ℚ)
    (h2 : 0 < r2) (h21 : r2 < r1) :
    (compute {p with revisit_min := JVal.num r1}).Ft ≤
      (compute {p with revisit_min := JVal.num r2}).Ft ∧
    (0 ≤ Cov.Cmis p →
      (compute {p with revisit_min := JVal.num r1}).Ann ≤
        (compute {p with revisit_min := JVal.num r2}).Ann) := by
  have h1 : (0:ℚ) < r1 := h2.trans h21
  have hrev : Cov.revisitsY {p with revisit_min := JVal.num r1} ≤
      Cov.revisitsY {p with revisit_min := JVal.num r2} := by
    unfold Cov.revisitsY
    have hRa : Cov.R {p with revisit_min := JVal.num r1} = r1 := rfl
    have hRb : Cov.R {p with revisit_min := JVal.num r2} = r2 := rfl
    rw [hRa, hRb]
    exact Int.ceil_mono (div_le_div_of_nonneg_left (by norm_num) h2 h21.le)
  have hA0 : (0:ℚ) ≤ Cov.A p := le_trans (by norm_num) (le_max_left _ _)
  have hKy : Cov.Kyear {p with revisit_min := JVal.num r1} ≤
      Cov.Kyear {p with revisit_min := JVal.num r2} := by
    unfold Cov.Kyear
    have ha : Cov.A {p with revisit_min := JVal.num r1} = Cov.A p := rfl
    have hb : Cov.A {p with revisit_min := JVal.num r2} = Cov.A p := rfl
    rw [ha, hb]
    exact mul_le_mul_of_nonneg_left (by exact_mod_cast hrev) hA0
  have hKm : (0:ℚ) < max (Cov.Kmis p) 0.000001 :=
    lt_of_lt_of_le (by norm_num) (le_max_right _ _)
  have hFt : Cov.Ft {p with revisit_min := JVal.num r1} ≤
      Cov.Ft {p with revisit_min := JVal.num r2} := by
    unfold Cov.Ft Cov.Fb
    have ha : Cov.Kmis {p with revisit_min := JVal.num r1} = Cov.Kmis p := rfl
    have hb : Cov.Kmis {p with revisit_min := JVal.num r2} = Cov.Kmis p := rfl
    rw [ha, hb]
    exact Int.ceil_mono ((div_le_div_iff_of_pos_right hKm).mpr hKy)
  refine ⟨hFt, fun hC => ?_⟩
  show Cov.Ann {p with revisit_min := JVal.num r1} ≤
    Cov.Ann {p with revisit_min := JVal.num r2}
  unfold Cov.Ann
  have hc1 : Cov.Cmis {p with revisit_min := JVal.num r1} = Cov.Cmis p := rfl
  have hc2 : Cov.Cmis {p with revisit_min := JVal.num r2} = Cov.Cmis p := rfl
  rw [hc1, hc2]
  have hcast : ((Cov.Ft {p with revisit_min := JVal.num r1} : ℚ)) ≤
      ((Cov.Ft {p with revisit_min := JVal.num r2} : ℚ)) := by exact_mod_cast hFt
  exact add_le_add_right (mul_le_mul_of_nonneg_right hcast hC) _

/-- C3, witness: the amended statement at the default record, revisit
1440 → 720 minutes. -/
theorem C3_revisit_monotone_wit :
    (0:ℚ) < 720 ∧ (720:ℚ) < 1440 ∧
    (compute {DEF with revisit_min := JVal.num 1440}).Ft ≤
      (compute {DEF with revisit_min := JVal.num 720}).Ft ∧
    0 ≤ Cov.Cmis DEF ∧
    (compute {DEF with revisit_min := JVal.num 1440}).Ann ≤
      (compute {DEF with revisit_min := JVal.num 720}).Ann := by
  have hC : (0:ℚ) ≤ Cov.Cmis DEF := by
    have h : Cov.Cmis DEF = 7900 := by with_unfolding_all rfl
    rw [h]; norm_num
  exact ⟨by norm_num, by norm_num,
    (C3_revisit_monotone_amended DEF 1440 720 (by norm_num) (by norm_num)).1, hC,
    (C3_revisit_monotone_amended DEF 1440 720 (by norm_num) (by norm_num)).2 hC⟩

/-- C5: in relay mode the fleet-sizing outputs are the constants
Smin = P0 = P = 1, whatever every other input holds. -/
theorem C5_relay_fleet_one (p : Params) (h : p.platform = "relay") :
    (compute p).Smin = JNum.num 1 ∧ (compute p).P0 = JNum.num 1 ∧
    (compute p).P = JNum.num 1 := by
  have hr : Cov.isRelay p = true := by simp [Cov.isRelay, h]
  exact ⟨by show Cov.Smin p = JNum.num 1; simp [Cov.Smin, hr],
    by show Cov.P0 p = JNum.num 1; simp [Cov.P0, hr],
    by show Cov.P p = JNum.num 1; simp [Cov.P, hr]⟩

/-- C5, witness: the relay record obtained from the defaults. -/
theorem C5_relay_fleet_one_wit :
    ({DEF with platform := "relay"} : Params).platform = "relay" ∧
    ((compute {DEF with platform := "relay"}).Smin = JNum.num 1 ∧
      (compute {DEF with platform := "relay"}).P0 = JNum.num 1 ∧
      (compute {DEF with platform := "relay"}).P = JNum.num 1) :=
  ⟨rfl, C5_relay_fleet_one {DEF with platform := "relay"} rfl⟩

/-- C6: taskingCalc never reads the caller-supplied platform/payload CAPEX
and life fields — its amortisation uses the catalog defaults — so changing
those four fields arbitrarily leaves the entire tasking result unchanged. -/
theorem C6_tasking_capex_insensitive (p : Params) (m : ℕ) (k : String) (a b c d : JVal) :
    taskingCalc
        {p with
          capex_platform_EUR := a, life_platform_days := b,
          capex_payload_EUR := c, life_payload_days := d} m k =
      taskingCalc p m k := rfl

/-- C7, counterexample: with a non-empty, non-numeric widthKm the effective
width W is not sqrt(areaKm2) — the source takes the pdec branch, whose
fallback is the empty string. -/
theorem C7_width_fallback_cex :
    (compute recBadWidth).W ≠ JVal.num (jsqrt ((compute recBadWidth).A)) := by
  have h : (compute recBadWidth).W = JVal.blank := by with_unfolding_all rfl
  rw [h]
  simp

/-- C7, amended: W = sqrt(areaKm2) exactly when widthKm is null/absent or
the empty string; a non-empty non-numeric widthKm instead yields the empty
string (coerced to 0 downstream in strip counting). -/
theorem C7_width_fallback_amended :
    (∀ p : Params, p.aoi_width_km = JVal.null ∨ p.aoi_width_km = JVal.blank →
        (compute p).W = JVal.num (jsqrt ((compute p).A))) ∧
    (∀ p : Params, p.aoi_width_km = JVal.nanStr → (compute p).W = JVal.blank) := by
  constructor
  · intro p h
    show Cov.W p = JVal.num (jsqrt (Cov.A p))
    rcases h with h | h <;> simp [Cov.W, h]
  · intro p h
    show Cov.W p = JVal.blank
    simp [Cov.W, h, pdec]

/-- C7, witness: the amended statement at the default record (width null)
and at the bad-width record. -/
theorem C7_width_fallback_wit :
    (DEF.aoi_width_km = JVal.null ∨ DEF.aoi_width_km = JVal.blank) ∧
    (compute DEF).W = JVal.num (jsqrt ((compute DEF).A)) ∧
    recBadWidth.aoi_width_km = JVal.nanStr ∧
    (compute recBadWidth).W = JVal.blank :=
  ⟨Or.inl rfl, C7_width_fallback_amended.1 DEF (Or.inl rfl), rfl,
    C7_width_fallback_amended.2 recBadWidth rfl⟩

/-- C8: for every corridor-shape record the strip count is
max(1, ceil(corridorWidthKm / (swathKm·(1−overlap)))), and on the concrete
instance corridorWidthKm = 1.6, swathKm = 1, overlap = 0.2 it equals 2. -/
theorem C8_corridor_strip_count :
    (∀ p : Params, p.aoiType = "corridor" →
        (compute p).n = max 1 ⌈pnum p.corridor_width_km 0 / (Cov.w p * (1 - Cov.ov p))⌉) ∧
    (compute recCorridor).n = 2 := by
  constructor
  · intro p h
    show Cov.n p = _
    simp [Cov.n, strips, h]
  · with_unfolding_all rfl

/-- C8, witness: the general corridor formula instantiated at the concrete
corridor record. -/
theorem C8_corridor_strip_count_wit :
    recCorridor.aoiType = "corridor" ∧
    (compute recCorridor).n =
      max 1 ⌈pnum recCorridor.corridor_width_km 0 / (Cov.w recCorridor * (1 - Cov.ov recCorridor))⌉ :=
  ⟨rfl, C8_corridor_strip_count.1 recCorridor rfl⟩

/-- C9: the spec's end-to-end subscription scenario: 365 revisits per year,
a coverage rate of 105 km²/h, and a sweep time of 3636/35 ≈ 103.9 minutes
(within 0.05 of the quoted 103.9); the result is a pure function of the
record, so all derived fields are deterministic. -/
theorem C9_end_to_end_scenario :
    (compute recScenario).revisitsY = 365 ∧ (compute recScenario).covRate = 105 ∧
    (compute recScenario).Ts = 3636 / 35 ∧ |(3636 / 35 : ℚ) - 103.9| < 1 / 20 := by
  refine ⟨by with_unfolding_all rfl, by with_unfolding_all rfl,
    by with_unfolding_all rfl, by norm_num [abs]⟩

/-- C10, counterexample: at a record whose per-mission cost is exactly zero
(zero mission days, fixed cost and consumables), with missionCount = 0 and
no proposed price, the per-mission margin GMm_final is itself NaN (0/0),
not a well-defined finite number as the claim states. -/
theorem C10_per_mission_margin_cex :
    (taskingCalc recZeroCost 0 kStd).GMm_final = JNum.nan := by
  with_unfolding_all rfl

/-- C10, amended: with missionCount = 0 and no valid user-proposed
per-mission price, the batch cost and chosen batch price are 0 and the
batch margin GMtot_final is NaN (the division 0/0 is unguarded), while —
provided the per-mission cost is nonzero, the restriction the
counterexample forces — the per-mission margin GMm_final is a finite
number (the per-mission cost and target price are total rationals by
construction). -/
theorem C10_zero_mission_batch_amended (p : Params) (k : String)
    (hu : p.proposed_price_per_mission_EUR = JVal.blank ∨
      p.proposed_price_per_mission_EUR = JVal.nanStr)
    (hc : Task.Cmis p k ≠ 0) :
    (taskingCalc p 0 k).tot = 0 ∧ (taskingCalc p 0 k).Ptot_final = 0 ∧
    (taskingCalc p 0 k).GMtot_final = JNum.nan ∧
    (taskingCalc p 0 k).GMm_final.isNum = true := by
  have hv : Task.userPmValid p = false := by
    rcases hu with h | h <;> simp [Task.userPmValid, h]
  have htot : Task.tot p 0 k = 0 := by simp [Task.tot]
  have hptot : Task.Ptot_final p 0 k = 0 := by simp [Task.Ptot_final]
  refine ⟨htot, hptot, ?_, ?_⟩
  · show Task.GMtot_final p 0 k = JNum.nan
    unfold Task.GMtot_final
    rw [hptot, htot]
    simp [jdiv]
  · show (Task.GMm_final p k).isNum = true
    unfold Task.GMm_final
    have hpm : Task.Pm_final p k = Task.pricePerMissionGM p k := by
      simp [Task.Pm_final, hv]
    have hne : Task.Pm_final p k ≠ 0 := by
      rw [hpm]
      unfold Task.pricePerMissionGM priceFromCost
      exact div_ne_zero hc (ne_of_gt (lt_of_lt_of_le (by norm_num) (le_max_right _ _)))
    simp [jdiv, hne, JNum.isNum]

/-- C10, witness: the amended statement at the default record (whose
per-mission standard-profile cost is 7900 ≠ 0). -/
theorem C10_zero_mission_batch_wit :
    (DEF.proposed_price_per_mission_EUR = JVal.blank ∨
      DEF.proposed_price_per_mission_EUR = JVal.nanStr) ∧
    Task.Cmis DEF kStd ≠ 0 ∧
    ((taskingCalc DEF 0 kStd).tot = 0 ∧ (taskingCalc DEF 0 kStd).Ptot_final = 0 ∧
      (taskingCalc DEF 0 kStd).GMtot_final = JNum.nan ∧
      (taskingCalc DEF 0 kStd).GMm_final.isNum = true) := by
  have hc : Task.Cmis DEF kStd ≠ 0 := by
    have h : Task.Cmis DEF kStd = 7900 := by with_unfolding_all rfl
    rw [h]; norm_num
  exact ⟨Or.inl rfl, hc, C10_zero_mission_batch_amended DEF kStd (Or.inl rfl) hc⟩
